import Mathlib

/-!
Shallow embedding of the Cloudflare Worker VLESS relay (`src/index.ts`).

Byte buffers (`ArrayBuffer` / `Uint8Array`) are modelled as `List Nat`
(each element the value of one byte, always `< 256` when produced by a
real transport).  JavaScript exceptions thrown by `processVlessHeader`
(including the `RangeError`s raised by out-of-bounds `DataView` reads and
`Uint8Array` constructions) become the error side of `Except`, tagged with
the error taxonomy used by the design document.
-/

namespace Vless

/-- Decidable equality of `Except` results, used to evaluate the model on
concrete inputs. -/
instance {ε α : Type} [DecidableEq ε] [DecidableEq α] : DecidableEq (Except ε α) := fun x y =>
  match x, y with
  | .error a, .error b =>
    if h : a = b then .isTrue (by rw [h]) else .isFalse (by simp [h])
  | .ok a, .ok b =>
    if h : a = b then .isTrue (by rw [h]) else .isFalse (by simp [h])
  | .error _, .ok _ => .isFalse (by simp)
  | .ok _, .error _ => .isFalse (by simp)

/-! ## Models of the JavaScript primitives used by the source -/

/-- Whitespace skipped by JavaScript `parseInt` (StrWhiteSpaceChar). -/
def isJsSpace (c : Char) : Bool :=
  c == ' ' || c == '\t' || c == '\n' || c == '\r' ||
  c.toNat == 0xB || c.toNat == 0xC || c.toNat == 0xA0 || c.toNat == 0xFEFF

/-- Hexadecimal digits accepted by `parseInt(_, 16)`. -/
def isHexDigitCh (c : Char) : Bool :=
  ('0' ≤ c && c ≤ '9') || ('a' ≤ c && c ≤ 'f') || ('A' ≤ c && c ≤ 'F')

/-- Numeric value of a hexadecimal digit. -/
def hexDigitVal (c : Char) : Nat :=
  if '0' ≤ c && c ≤ '9' then c.toNat - '0'.toNat
  else if 'a' ≤ c && c ≤ 'f' then c.toNat - 'a'.toNat + 10
  else c.toNat - 'A'.toNat + 10

/-- JavaScript `parseInt(s, 16)`: skip leading whitespace, optional sign,
optional `0x`/`0X` radix marker, then the maximal run of hex digits;
`none` models the `NaN` result when no digit is found. -/
def parseIntHex (s : String) : Option Int :=
  let cs := s.toList.dropWhile isJsSpace
  let sign : Int := match cs with | '-' :: _ => -1 | _ => 1
  let cs1 := match cs with | '-' :: t => t | '+' :: t => t | _ => cs
  let cs2 := match cs1 with
    | '0' :: c :: t => if c = 'x' ∨ c = 'X' then t else cs1
    | _ => cs1
  let ds := cs2.takeWhile isHexDigitCh
  if ds.isEmpty then none
  else some (sign * ds.foldl (fun a c => a * 16 + (hexDigitVal c : Int)) 0)

/-- JavaScript `ToUint8` as applied when storing into a `Uint8Array`:
`NaN` becomes `0`, other integers are reduced modulo `256` (non-negative
representative). -/
def toUint8 (v : Option Int) : Nat :=
  match v with
  | none => 0
  | some n => (n % 256).toNat

/-- JavaScript `s.substring(a, b)` for `a ≤ b` (the only use here). -/
def jsSubstring (s : String) (a b : Nat) : String :=
  String.mk ((s.toList.drop a).take (b - a))

/-- JavaScript `s.toLowerCase()` restricted to ASCII (sufficient for the
`websocket` header-token comparison). -/
def jsToLowerCase (s : String) : String :=
  String.mk (s.toList.map Char.toLower)

/-- JavaScript global regex replace removing every dash from `s`. -/
def removeDashes (s : String) : String :=
  String.mk (s.toList.filter (fun c => c ≠ '-'))

/-- `uuidToBytes` from the source: strip dashes, then for each of 16
positions parse two characters as hex and store the result into a
`Uint8Array(16)` slot. -/
def uuidToBytes (uuid : String) : List Nat :=
  let hex := removeDashes uuid
  (List.range 16).map (fun i => toUint8 (parseIntHex (jsSubstring hex (i * 2) (i * 2 + 2))))

/-- `compareArrays` from the source: length check first, then an indexed
element-by-element scan. -/
def compareArrays (a b : List Nat) : Bool :=
  if a.length ≠ b.length then false
  else (List.range a.length).all (fun i => a.getD i 0 == b.getD i 0)

/-! ## TextDecoder (UTF-8, replacement mode) -/

/-- The U+FFFD replacement character emitted by `TextDecoder` on
malformed input. -/
def replCh : Char := Char.ofNat 0xFFFD

/-- WHATWG UTF-8 decoder with replacement, fuelled by the input length
(each step consumes at least one byte). -/
def utf8DecodeGo : Nat → List Nat → List Char
  | 0, _ => []
  | _ + 1, [] => []
  | fuel + 1, b :: rest =>
    if b ≤ 0x7F then
      Char.ofNat b :: utf8DecodeGo fuel rest
    else if 0xC2 ≤ b ∧ b ≤ 0xDF then
      match rest with
      | [] => [replCh]
      | b1 :: rest1 =>
        if 0x80 ≤ b1 ∧ b1 ≤ 0xBF then
          Char.ofNat ((b % 0x20) * 0x40 + b1 % 0x40) :: utf8DecodeGo fuel rest1
        else replCh :: utf8DecodeGo fuel rest
    else if 0xE0 ≤ b ∧ b ≤ 0xEF then
      match rest with
      | [] => [replCh]
      | b1 :: rest1 =>
        let lo := if b = 0xE0 then 0xA0 else 0x80
        let hi := if b = 0xED then 0x9F else 0xBF
        if lo ≤ b1 ∧ b1 ≤ hi then
          match rest1 with
          | [] => [replCh]
          | b2 :: rest2 =>
            if 0x80 ≤ b2 ∧ b2 ≤ 0xBF then
              Char.ofNat ((b % 0x10) * 0x1000 + (b1 % 0x40) * 0x40 + b2 % 0x40) ::
                utf8DecodeGo fuel rest2
            else replCh :: utf8DecodeGo fuel rest1
        else replCh :: utf8DecodeGo fuel rest
    else if 0xF0 ≤ b ∧ b ≤ 0xF4 then
      match rest with
      | [] => [replCh]
      | b1 :: rest1 =>
        let lo := if b = 0xF0 then 0x90 else 0x80
        let hi := if b = 0xF4 then 0x8F else 0xBF
        if lo ≤ b1 ∧ b1 ≤ hi then
          match rest1 with
          | [] => [replCh]
          | b2 :: rest2 =>
            if 0x80 ≤ b2 ∧ b2 ≤ 0xBF then
              match rest2 with
              | [] => [replCh]
              | b3 :: rest3 =>
                if 0x80 ≤ b3 ∧ b3 ≤ 0xBF then
                  Char.ofNat ((b % 8) * 0x40000 + (b1 % 0x40) * 0x1000 +
                      (b2 % 0x40) * 0x40 + b3 % 0x40) ::
                    utf8DecodeGo fuel rest3
                else replCh :: utf8DecodeGo fuel rest2
            else replCh :: utf8DecodeGo fuel rest1
        else replCh :: utf8DecodeGo fuel rest
    else
      replCh :: utf8DecodeGo fuel rest

/-- `new TextDecoder().decode(bytes)`: UTF-8 with U+FFFD replacement. -/
def utf8Decode (bs : List Nat) : String :=
  String.mk (utf8DecodeGo bs.length bs)

/-! ## IPv6 text rendering -/

/-- JavaScript `byte.toString(16)`: lowercase hex digits, no padding. -/
def jsHexString (b : Nat) : String :=
  String.mk (Nat.toDigits 16 b)

/-- JavaScript `s.padStart(2, '0')`. -/
def padStart2 (s : String) : String :=
  if s.length < 2 then String.mk (List.replicate (2 - s.length) '0') ++ s else s

/-- One byte rendered as two lowercase hex digits. -/
def hexPad2 (b : Nat) : String := padStart2 (jsHexString b)

/-- The indexed `reduce` over the 16 IPv6 bytes: a `':'` is inserted
before every even index except index 0, then the byte's two hex digits
are appended. -/
def ipv6Fold (i : Nat) (acc : String) : List Nat → String
  | [] => acc
  | b :: rest =>
    ipv6Fold (i + 1)
      ((if i % 2 = 0 then acc ++ (if i = 0 then "" else ":") else acc) ++ hexPad2 b) rest

/-- The IPv6 rendering of the `case 3` branch of `processVlessHeader`. -/
def ipv6String (bs : List Nat) : String := ipv6Fold 0 "" bs

/-! ## Environment and error taxonomy -/

/-- The `Env` interface of the worker. -/
structure Env where
  UUID : String
  VLESS_PATH : String
  PROXY_HOST : String
  FALLBACK_HOST : String
  deriving Repr, DecidableEq

/-- Errors thrown by `processVlessHeader`, tagged with the design
document's taxonomy.  `truncatedHeader` stands for the `RangeError`
raised by an out-of-bounds `DataView` read or `Uint8Array` view
construction. -/
inductive VlessError where
  | truncatedHeader
  | unsupportedVersion (v : Nat)
  | invalidSecret
  | unsupportedCommand (c : Nat)
  | invalidAddressKind (t : Nat)
  deriving Repr, DecidableEq

/-- The `e.message` strings of the thrown errors (the `RangeError`
message is the V8 text for an out-of-bounds `DataView` access). -/
def errorMessage : VlessError → String
  | .truncatedHeader => "Offset is outside the bounds of the DataView"
  | .unsupportedVersion v => "Unsupported VLESS version: " ++ toString v
  | .invalidSecret => "Invalid UUID"
  | .unsupportedCommand c => "Unsupported command: " ++ toString c
  | .invalidAddressKind t => "Invalid address type: " ++ toString t

/-- The message of the error thrown by `connect` when the outbound
connection fails, with `cause` the underlying `e.message`. -/
def connectFailMessage (host : String) (port : Nat) (cause : String) : String :=
  "Failed to connect to " ++ host ++ ":" ++ toString port ++ ": " ++ cause

/-! ## Byte-buffer reads -/

/-- `dataView.getUint8(i)`; out of bounds throws a `RangeError`. -/
def getUint8 (msg : List Nat) (i : Nat) : Except VlessError Nat :=
  match msg[i]? with
  | some b => .ok b
  | none => .error .truncatedHeader

/-- `dataView.getUint16(i)` (big-endian); out of bounds throws a
`RangeError`. -/
def getUint16 (msg : List Nat) (i : Nat) : Except VlessError Nat :=
  match msg[i]?, msg[i + 1]? with
  | some b0, some b1 => .ok (b0 * 256 + b1)
  | some _, none => .error .truncatedHeader
  | none, _ => .error .truncatedHeader

/-- `new Uint8Array(buffer, off, len)`: throws a `RangeError` unless the
view fits inside the buffer. -/
def sliceBytes (msg : List Nat) (off len : Nat) : Except VlessError (List Nat) :=
  if off + len ≤ msg.length then .ok ((msg.drop off).take len)
  else .error .truncatedHeader

/-! ## Header parser -/

/-- The `switch (addressType)` block of `processVlessHeader`: decodes one
address starting at `offset`, returning the host string and the offset
just past the address bytes. -/
def parseAddress (msg : List Nat) (offset : Nat) (addressType : Nat) :
    Except VlessError (String × Nat) :=
  if addressType = 1 then
    match sliceBytes msg offset 4 with
    | .error e => .error e
    | .ok ip => .ok (String.intercalate "." (ip.map toString), offset + 4)
  else if addressType = 2 then
    match getUint8 msg offset with
    | .error e => .error e
    | .ok domainLength =>
      match sliceBytes msg (offset + 1) domainLength with
      | .error e => .error e
      | .ok domainBytes => .ok (utf8Decode domainBytes, offset + 1 + domainLength)
  else if addressType = 3 then
    match sliceBytes msg offset 16 with
    | .error e => .error e
    | .ok ipv6Bytes => .ok (ipv6String ipv6Bytes, offset + 16)
  else .error (.invalidAddressKind addressType)

/-- The result object of `processVlessHeader`.  `decodedHost` records the
intermediate value of the mutable `host` variable just before the
`PROXY_HOST` override (the Address Decoder's output); `host` is its final
value, the one passed to `connect`.  `headerByteLength` is the final
`offset`, `initialData` the `data` view `new Uint8Array(message, offset)`
written to the remote socket. -/
structure VlessResult where
  decodedHost : String
  host : String
  port : Nat
  headerByteLength : Nat
  initialData : List Nat
  deriving Repr, DecidableEq

/-- `processVlessHeader` from the source, up to (and excluding) the
`connect` call: every validation step in source order.  The `connect`
call and the initial write are modelled separately (`connectCalls`,
`outboundWrites`, and the session machine) because they happen only after
every check has passed. -/
def processVlessHeader (msg : List Nat) (env : Env) : Except VlessError VlessResult :=
  match getUint8 msg 0 with
  | .error e => .error e
  | .ok version =>
    if version ≠ 0 then .error (.unsupportedVersion version)
    else match sliceBytes msg 1 16 with
      | .error e => .error e
      | .ok receivedUuid =>
        if ¬ compareArrays receivedUuid (uuidToBytes env.UUID) then .error .invalidSecret
        else match getUint8 msg 17 with
          | .error e => .error e
          | .ok addonsLength =>
            match getUint8 msg (18 + addonsLength) with
            | .error e => .error e
            | .ok command =>
              if command ≠ 1 then .error (.unsupportedCommand command)
              else match getUint16 msg (19 + addonsLength) with
                | .error e => .error e
                | .ok port =>
                  match getUint8 msg (21 + addonsLength) with
                  | .error e => .error e
                  | .ok addressType =>
                    match parseAddress msg (22 + addonsLength) addressType with
                    | .error e => .error e
                    | .ok (decodedHost, endOffset) =>
                      let host :=
                        if env.PROXY_HOST ≠ "" ∧ decodedHost ≠ env.PROXY_HOST then
                          env.PROXY_HOST
                        else decodedHost
                      .ok { decodedHost := decodedHost, host := host, port := port,
                            headerByteLength := endOffset,
                            initialData := msg.drop endOffset }

/-- The `connect({hostname, port})` invocations performed while handling
one first frame: the source calls `connect` exactly once, after all
validation, with the (possibly overridden) host and the parsed port; on
any thrown validation error the call is never reached. -/
def connectCalls (msg : List Nat) (env : Env) : List (String × Nat) :=
  match processVlessHeader msg env with
  | .ok r => [(r.host, r.port)]
  | .error _ => []

/-- The writes `writer.write(data)` issued by `processVlessHeader` on the
freshly opened socket. -/
def outboundWrites (msg : List Nat) (env : Env) : List (List Nat) :=
  match processVlessHeader msg env with
  | .ok r => [r.initialData]
  | .error _ => []

/-! ## Upgrade gate -/

/-- Result of the pre-upgrade part of `handleVless`. -/
inductive GateResult where
  | response (status : Nat) (body : String)
  | upgrade (status : Nat)
  deriving Repr, DecidableEq

/-- The upgrade gate of `handleVless`: a missing, empty (falsy), or
non-`websocket` (case-insensitive) `Upgrade` header yields the 426
response before any WebSocket pair is created; otherwise a 101 response
carrying the client socket is returned. -/
def handleVlessGate (upgradeHeader : Option String) : GateResult :=
  match upgradeHeader with
  | none => .response 426 "Expected a WebSocket Upgrade request"
  | some s =>
    if s = "" ∨ jsToLowerCase s ≠ "websocket" then
      .response 426 "Expected a WebSocket Upgrade request"
    else .upgrade 101

/-! ## Session machine

After the upgrade, `handleVless` wires the server WebSocket with event
listeners.  We model the `message` listeners explicitly:

* `Handler.vless` is the listener installed right after `server.accept()`;
  the source never removes it, so it stays registered for the whole
  session and runs `processVlessHeader` on **every** frame.
* `Handler.pump conn` is the listener installed by the `ReadableStream`
  created after a successful parse: it enqueues the frame, and
  `pipeTo(remoteSocket.writable)` writes it to outbound connection
  `conn`.

Listeners added while an event is being dispatched do not run for that
event (and in the source the pump listener is only registered after the
awaited `connect` resolves), so one dispatch iterates over the listener
list as it stood when the frame arrived.

`remoteSocket.readable` is returned by `connect` but never read by the
source — no listener, pipe, or reader is ever attached to it, and
`server.send` is never called — so a `remoteData` event produces no
effect.  The `SessionEffect.sendClient` constructor exists to state that
fact: no transition emits it. -/

/-- Registered `message` listeners on the server WebSocket. -/
inductive Handler where
  | vless
  | pump (conn : Nat)
  deriving Repr, DecidableEq

/-- Observable effects of a session. -/
inductive SessionEffect where
  /-- `processVlessHeader` was invoked on `frame`. -/
  | parse (frame : List Nat)
  /-- `connect({hostname := host, port})` was attempted; `conn` numbers the
  attempt. -/
  | connect (conn : Nat) (host : String) (port : Nat)
  /-- Bytes written to outbound connection `conn`. -/
  | writeRemote (conn : Nat) (bytes : List Nat)
  /-- A frame sent to the client over the server WebSocket (`server.send`);
  the source contains no such call. -/
  | sendClient (bytes : List Nat)
  /-- `server.close(code, reason)`. -/
  | closeWS (code : Nat) (reason : String)
  deriving Repr, DecidableEq

/-- Session state: the registered message listeners, the number of
`connect` attempts so far, and the accumulated effect trace. -/
structure RelayState where
  listeners : List Handler
  nextConn : Nat
  effects : List SessionEffect
  deriving Repr, DecidableEq

/-- Events a session can receive: a WebSocket frame from the client, or a
chunk of bytes produced by outbound connection `conn`. -/
inductive WsEvent where
  | message (frame : List Nat)
  | remoteData (conn : Nat) (chunk : List Nat)
  deriving Repr, DecidableEq

/-- Run one registered `message` listener on one frame.  `world` models
the network: `world host port = none` means `connect` succeeds, `some
cause` means it throws with that underlying message (caught by the same
`catch`, which closes the WebSocket with code 1011). -/
def applyHandler (env : Env) (world : String → Nat → Option String)
    (frame : List Nat) (st : RelayState) : Handler → RelayState
  | .vless =>
    let st := { st with effects := st.effects ++ [SessionEffect.parse frame] }
    match processVlessHeader frame env with
    | .error e =>
      { st with effects := st.effects ++ [SessionEffect.closeWS 1011 (errorMessage e)] }
    | .ok r =>
      let conn := st.nextConn
      let st := { st with
        effects := st.effects ++ [SessionEffect.connect conn r.host r.port]
        nextConn := conn + 1 }
      match world r.host r.port with
      | some cause =>
        { st with effects :=
            st.effects ++ [SessionEffect.closeWS 1011 (connectFailMessage r.host r.port cause)] }
      | none =>
        { st with
          effects := st.effects ++ [SessionEffect.writeRemote conn r.initialData]
          listeners := st.listeners ++ [Handler.pump conn] }
  | .pump c => { st with effects := st.effects ++ [SessionEffect.writeRemote c frame] }

/-- Dispatch one event.  A `message` event runs every currently
registered listener in registration order; a `remoteData` event matches
no code in the source (the readable side of the socket is dropped), so it
changes nothing. -/
def dispatchEvent (env : Env) (world : String → Nat → Option String)
    (st : RelayState) : WsEvent → RelayState
  | .message frame => st.listeners.foldl (applyHandler env world frame) st
  | .remoteData _ _ => st

/-- The initial state after `server.accept()`: only the header-handling
listener is registered. -/
def initState : RelayState := { listeners := [.vless], nextConn := 0, effects := [] }

/-- Run a whole session over a list of events. -/
def runSession (env : Env) (world : String → Nat → Option String)
    (events : List WsEvent) : RelayState :=
  events.foldl (dispatchEvent env world) initState

/-- The chunks written to outbound connection `conn`, in order. -/
def remoteWrites (conn : Nat) (effects : List SessionEffect) : List (List Nat) :=
  effects.filterMap (fun e => match e with
    | .writeRemote c bytes => if c = conn then some bytes else none
    | _ => none)

/-- The frames on which `processVlessHeader` was invoked, in order. -/
def parsedFrames (effects : List SessionEffect) : List (List Nat) :=
  effects.filterMap (fun e => match e with
    | .parse frame => some frame
    | _ => none)

/-- The frames sent back to the client, in order. -/
def clientSends (effects : List SessionEffect) : List (List Nat) :=
  effects.filterMap (fun e => match e with
    | .sendClient bytes => some bytes
    | _ => none)

/-! ## Concrete fixtures used by closed theorems and witnesses -/

/-- A concrete environment whose configured secret is sixteen zero
bytes. -/
def envA : Env :=
  { UUID := "00000000-0000-0000-0000-000000000000", VLESS_PATH := "/tunnel",
    PROXY_HOST := "", FALLBACK_HOST := "https://example.com" }

/-- `envA` with an override egress host configured. -/
def envP : Env := { envA with PROXY_HOST := "egress.example" }

/-- A valid first frame for `envA`: version 0, the all-zero secret, no
addons, command 1, port 80, IPv4 address 1.2.3.4, one payload byte
`0xAA`. -/
def firstFrame : List Nat :=
  0 :: (List.replicate 16 0 ++ [0, 1, 0, 80, 1, 1, 2, 3, 4, 170])

/-- A subsequent raw-payload frame (not a valid header). -/
def frameQ : List Nat := [1, 2, 3]

/-- A network in which every outbound connection succeeds. -/
def worldUp : String → Nat → Option String := fun _ _ => none

/-- A first frame for `envA` whose secret field differs from the
configured secret in its final byte. -/
def badSecretFrame : List Nat :=
  0 :: ((List.replicate 15 0 ++ [7]) ++ [0, 1, 0, 80, 1, 1, 2, 3, 4])

/-- A domain-kind first frame for `envA` declaring an 11-byte domain but
carrying only 10 of its bytes. -/
def shortDomainFrame : List Nat :=
  0 :: (List.replicate 16 0 ++ [0, 1, 0, 80, 2, 11] ++
    [101, 120, 97, 109, 112, 108, 101, 46, 99, 111])

/-- A frame of exactly 17 bytes for `envA`: version 0 and the full
correct secret, ending right before the addons-length byte. -/
def secretOnlyFrame : List Nat := 0 :: List.replicate 16 0

/-- The bytes of the 11-character domain string used in witnesses. -/
def dom11 : List Nat := [101, 120, 97, 109, 112, 108, 101, 46, 99, 111, 109]

/-- The parse result of `firstFrame` under `envA` (no override). -/
def rA : VlessResult :=
  { decodedHost := "1.2.3.4", host := "1.2.3.4", port := 80,
    headerByteLength := 26, initialData := [170] }

/-- The parse result of `firstFrame` under `envP` (override applied). -/
def rP : VlessResult :=
  { decodedHost := "1.2.3.4", host := "egress.example", port := 80,
    headerByteLength := 26, initialData := [170] }

end Vless

/-! # Theorems -/

namespace Vless

/-! ## Helper lemmas -/

theorem uuidToBytes_length (s : String) : (uuidToBytes s).length = 16 := by
  simp [uuidToBytes]

theorem compareArrays_eq_true_iff {a b : List Nat} : compareArrays a b = true ↔ a = b := by
  unfold compareArrays
  split
  · rename_i hne
    simp only [Bool.false_eq_true, false_iff]
    intro h
    exact hne (by rw [h])
  · rename_i hne
    push_neg at hne
    constructor
    · intro h
      refine List.ext_getElem hne ?_
      intro i h1 h2
      have hmem := List.all_eq_true.mp h i (List.mem_range.mpr h1)
      simp only [beq_iff_eq, List.getD_eq_getElem?_getD, List.getElem?_eq_getElem h1,
        List.getElem?_eq_getElem h2, Option.getD_some] at hmem
      exact hmem
    · rintro rfl
      simp

theorem compareArrays_self (a : List Nat) : compareArrays a a = true :=
  compareArrays_eq_true_iff.mpr rfl

theorem getUint8_ok {msg : List Nat} {i b : Nat} (h : msg[i]? = some b) :
    getUint8 msg i = .ok b := by
  unfold getUint8; rw [h]

theorem getUint8_err {msg : List Nat} {i : Nat} (h : msg.length ≤ i) :
    getUint8 msg i = .error .truncatedHeader := by
  unfold getUint8; rw [List.getElem?_eq_none h]

theorem getUint16_ok {msg : List Nat} {i b0 b1 : Nat}
    (h0 : msg[i]? = some b0) (h1 : msg[i + 1]? = some b1) :
    getUint16 msg i = .ok (b0 * 256 + b1) := by
  unfold getUint16; rw [h0, h1]

theorem getUint16_err {msg : List Nat} {i : Nat} (h : msg.length ≤ i + 1) :
    getUint16 msg i = .error .truncatedHeader := by
  unfold getUint16
  rw [List.getElem?_eq_none h]
  cases msg[i]? <;> rfl

theorem getElem?_of_drop_cons {msg t : List Nat} {i b : Nat}
    (h : msg.drop i = b :: t) : msg[i]? = some b := by
  have h0 := List.getElem?_drop msg i 0
  rw [h] at h0
  simpa using h0.symm

theorem sliceBytes_ok {msg l t : List Nat} {off len : Nat}
    (h : msg.drop off = l ++ t) (hl : l.length = len) (hoff : off ≤ msg.length) :
    sliceBytes msg off len = .ok l := by
  have hlen : off + len ≤ msg.length := by
    have hcong := congrArg List.length h
    simp only [List.length_drop, List.length_append] at hcong
    omega
  unfold sliceBytes
  rw [if_pos hlen, h, ← hl, List.take_left]

theorem sliceBytes_err {msg : List Nat} {off len : Nat}
    (h : msg.length < off + len) : sliceBytes msg off len = .error .truncatedHeader := by
  unfold sliceBytes
  rw [if_neg (by omega)]

/-! ## C4: valid headers parse with the exact header length -/

/-- C4: a frame with version 0, the configured secret, `N` addon bytes,
command 1, any port bytes, a valid address kind and a complete address
parses successfully, its recorded header end is exactly
`1 + 16 + 1 + N + 1 + 2 + 1 + addressLength`, and the initial-payload
slice starts exactly there (it is the trailing `payload`). -/
theorem valid_header_offsets (env : Env) (msg secret addons addrBytes payload : List Nat)
    (p1 p2 kind : Nat) (hsec : secret = uuidToBytes env.UUID)
    (hmsg : msg = 0 :: (secret ++ (addons.length :: (addons ++
      (1 :: (p1 :: (p2 :: (kind :: (addrBytes ++ payload)))))))))
    (hkind : (kind = 1 ∧ addrBytes.length = 4) ∨
             (kind = 2 ∧ ∃ t, addrBytes = t.length :: t) ∨
             (kind = 3 ∧ addrBytes.length = 16)) :
    ∃ r, processVlessHeader msg env = .ok r ∧
      r.headerByteLength = 1 + 16 + 1 + addons.length + 1 + 2 + 1 + addrBytes.length ∧
      r.initialData = payload ∧ r.port = p1 * 256 + p2 := by
  have hsl : secret.length = 16 := by rw [hsec]; exact uuidToBytes_length _
  have d1 : msg.drop 1 = secret ++ (addons.length :: (addons ++
      (1 :: (p1 :: (p2 :: (kind :: (addrBytes ++ payload))))))) := by
    rw [hmsg]
    rfl
  have d17 : msg.drop 17 = addons.length :: (addons ++
      (1 :: (p1 :: (p2 :: (kind :: (addrBytes ++ payload)))))) := by
    have h2 := List.drop_drop 16 1 msg
    rw [← h2, d1, List.drop_left' hsl]
  have d18 : msg.drop 18 = addons ++ (1 :: (p1 :: (p2 :: (kind :: (addrBytes ++ payload))))) := by
    have h2 := List.drop_drop 1 17 msg
    rw [← h2, d17]
    rfl
  have d18N : msg.drop (18 + addons.length) =
      1 :: (p1 :: (p2 :: (kind :: (addrBytes ++ payload)))) := by
    have h2 := List.drop_drop addons.length 18 msg
    rw [← h2, d18, List.drop_left]
  have d19N : msg.drop (19 + addons.length) = p1 :: (p2 :: (kind :: (addrBytes ++ payload))) := by
    have h2 := List.drop_drop 1 (18 + addons.length) msg
    rw [show 18 + addons.length + 1 = 19 + addons.length by omega] at h2
    rw [← h2, d18N]
    rfl
  have d20N : msg.drop (20 + addons.length) = p2 :: (kind :: (addrBytes ++ payload)) := by
    have h2 := List.drop_drop 1 (19 + addons.length) msg
    rw [show 19 + addons.length + 1 = 20 + addons.length by omega] at h2
    rw [← h2, d19N]
    rfl
  have d21N : msg.drop (21 + addons.length) = kind :: (addrBytes ++ payload) := by
    have h2 := List.drop_drop 1 (20 + addons.length) msg
    rw [show 20 + addons.length + 1 = 21 + addons.length by omega] at h2
    rw [← h2, d20N]
    rfl
  have d22N : msg.drop (22 + addons.length) = addrBytes ++ payload := by
    have h2 := List.drop_drop 1 (21 + addons.length) msg
    rw [show 21 + addons.length + 1 = 22 + addons.length by omega] at h2
    rw [← h2, d21N]
    rfl
  have hlenmsg : msg.length = 22 + addons.length + addrBytes.length + payload.length := by
    rw [hmsg]
    simp [List.length_append, hsl]
    omega
  have r0 : msg[0]? = some 0 := by simp [hmsg]
  have r17 := getElem?_of_drop_cons d17
  have rCmd := getElem?_of_drop_cons d18N
  have rP1 := getElem?_of_drop_cons d19N
  have rP2 : msg[19 + addons.length + 1]? = some p2 := by
    rw [show 19 + addons.length + 1 = 20 + addons.length by omega]
    exact getElem?_of_drop_cons d20N
  have rKind := getElem?_of_drop_cons d21N
  have hslice : sliceBytes msg 1 16 = .ok secret :=
    sliceBytes_ok d1 hsl (by omega)
  have hcmp : compareArrays secret (uuidToBytes env.UUID) = true := by
    rw [hsec]; exact compareArrays_self _
  rcases hkind with ⟨hk, ha⟩ | ⟨hk, t, ht⟩ | ⟨hk, ha⟩ <;> subst hk
  · -- IPv4
    have haddr : parseAddress msg (22 + addons.length) 1 =
        .ok (String.intercalate "." (addrBytes.map toString), 22 + addons.length + 4) := by
      unfold parseAddress
      rw [if_pos rfl]
      simp only [sliceBytes_ok d22N ha (by omega), List.map]
    have hdata : msg.drop (22 + addons.length + 4) = payload := by
      have h2 := List.drop_drop 4 (22 + addons.length) msg
      rw [← h2, d22N, List.drop_left' ha]
    have hok : processVlessHeader msg env = .ok
        { decodedHost := String.intercalate "." (addrBytes.map toString),
          host := if env.PROXY_HOST ≠ "" ∧
              String.intercalate "." (addrBytes.map toString) ≠ env.PROXY_HOST then
              env.PROXY_HOST
            else String.intercalate "." (addrBytes.map toString),
          port := p1 * 256 + p2,
          headerByteLength := 22 + addons.length + 4,
          initialData := payload } := by
      unfold processVlessHeader
      rw [getUint8_ok r0]
      simp only [reduceIte, hslice, hcmp, Bool.not_true, Bool.false_eq_true,
        getUint8_ok r17, getUint8_ok rCmd, getUint16_ok rP1 rP2, getUint8_ok rKind,
        haddr, hdata]
      simp
    exact ⟨_, hok, by show 22 + addons.length + 4 = _ ; omega, rfl, rfl⟩
  · -- Domain
    have ha' : addrBytes.length = t.length + 1 := by rw [ht]; rfl
    have d22N' : msg.drop (22 + addons.length) = t.length :: (t ++ payload) := by
      rw [d22N, ht]
      rfl
    have rLen := getElem?_of_drop_cons d22N'
    have d23N : msg.drop (22 + addons.length + 1) = t ++ payload := by
      have h2 := List.drop_drop 1 (22 + addons.length) msg
      rw [← h2, d22N']
      rfl
    have haddr : parseAddress msg (22 + addons.length) 2 =
        .ok (utf8Decode t, 22 + addons.length + 1 + t.length) := by
      unfold parseAddress
      rw [if_neg (by decide), if_pos rfl, getUint8_ok rLen]
      simp only [sliceBytes_ok d23N rfl (by omega)]
    have hdata : msg.drop (22 + addons.length + 1 + t.length) = payload := by
      have h2 := List.drop_drop t.length (22 + addons.length + 1) msg
      rw [← h2, d23N, List.drop_left]
    have hok : processVlessHeader msg env = .ok
        { decodedHost := utf8Decode t,
          host := if env.PROXY_HOST ≠ "" ∧ utf8Decode t ≠ env.PROXY_HOST then
              env.PROXY_HOST
            else utf8Decode t,
          port := p1 * 256 + p2,
          headerByteLength := 22 + addons.length + 1 + t.length,
          initialData := payload } := by
      unfold processVlessHeader
      rw [getUint8_ok r0]
      simp only [reduceIte, hslice, hcmp, Bool.not_true, Bool.false_eq_true,
        getUint8_ok r17, getUint8_ok rCmd, getUint16_ok rP1 rP2, getUint8_ok rKind,
        haddr, hdata]
      simp
    exact ⟨_, hok, by show 22 + addons.length + 1 + t.length = _ ; omega, rfl, rfl⟩
  · -- IPv6
    have haddr : parseAddress msg (22 + addons.length) 3 =
        .ok (ipv6String addrBytes, 22 + addons.length + 16) := by
      unfold parseAddress
      rw [if_neg (by decide), if_neg (by decide), if_pos rfl]
      simp only [sliceBytes_ok d22N ha (by omega)]
    have hdata : msg.drop (22 + addons.length + 16) = payload := by
      have h2 := List.drop_drop 16 (22 + addons.length) msg
      rw [← h2, d22N, List.drop_left' ha]
    have hok : processVlessHeader msg env = .ok
        { decodedHost := ipv6String addrBytes,
          host := if env.PROXY_HOST ≠ "" ∧ ipv6String addrBytes ≠ env.PROXY_HOST then
              env.PROXY_HOST
            else ipv6String addrBytes,
          port := p1 * 256 + p2,
          headerByteLength := 22 + addons.length + 16,
          initialData := payload } := by
      unfold processVlessHeader
      rw [getUint8_ok r0]
      simp only [reduceIte, hslice, hcmp, Bool.not_true, Bool.false_eq_true,
        getUint8_ok r17, getUint8_ok rCmd, getUint16_ok rP1 rP2, getUint8_ok rKind,
        haddr, hdata]
      simp
    exact ⟨_, hok, by show 22 + addons.length + 16 = _ ; omega, rfl, rfl⟩

theorem valid_header_offsets_witness :
    (List.replicate 16 0 : List Nat) = uuidToBytes envA.UUID ∧
    firstFrame = 0 :: (List.replicate 16 0 ++ (([] : List Nat).length :: ([] ++
      (1 :: (0 :: (80 :: (1 :: ([1, 2, 3, 4] ++ [170])))))))) ∧
    ((1 : Nat) = 1 ∧ ([1, 2, 3, 4] : List Nat).length = 4) ∧
    (∃ r, processVlessHeader firstFrame envA = .ok r ∧
      r.headerByteLength =
        1 + 16 + 1 + ([] : List Nat).length + 1 + 2 + 1 + ([1, 2, 3, 4] : List Nat).length ∧
      r.initialData = [170] ∧ r.port = 0 * 256 + 80) :=
  ⟨by decide, by decide, ⟨rfl, by decide⟩,
   valid_header_offsets envA firstFrame (List.replicate 16 0) [] [1, 2, 3, 4] [170]
     0 80 1 (by decide) (by decide)
     (Or.inl ⟨rfl, by decide⟩)⟩

/-! ## C5: destination resolver override -/

/-- On every successful parse, the host passed onward is the decoded host
unless a non-empty `PROXY_HOST` differing from it is configured. -/
theorem processVlessHeader_host_spec {msg : List Nat} {env : Env} {r : VlessResult}
    (h : processVlessHeader msg env = .ok r) :
    r.host = if env.PROXY_HOST ≠ "" ∧ r.decodedHost ≠ env.PROXY_HOST then env.PROXY_HOST
      else r.decodedHost := by
  unfold processVlessHeader at h
  repeat' split at h
  all_goals simp_all
  all_goals (cases h; try simp_all)
  all_goals (split <;> simp_all)

/-- C5: the connector is invoked with the final host and the parsed port;
with no override configured the decoded host passes through unchanged,
and a configured override that differs from the decoded host replaces
it. -/
theorem destination_override (msg : List Nat) (env : Env) (r : VlessResult)
    (h : processVlessHeader msg env = .ok r) :
    connectCalls msg env = [(r.host, r.port)] ∧
    (env.PROXY_HOST = "" → r.host = r.decodedHost) ∧
    (env.PROXY_HOST ≠ "" → r.decodedHost ≠ env.PROXY_HOST → r.host = env.PROXY_HOST) ∧
    (env.PROXY_HOST ≠ "" → r.decodedHost = env.PROXY_HOST → r.host = r.decodedHost) := by
  refine ⟨by unfold connectCalls; rw [h], ?_, ?_, ?_⟩
  · intro hp
    rw [processVlessHeader_host_spec h]
    simp [hp]
  · intro hp hd
    rw [processVlessHeader_host_spec h, if_pos ⟨hp, hd⟩]
  · intro hp hd
    rw [processVlessHeader_host_spec h]
    simp [hd]

theorem destination_override_witness :
    processVlessHeader firstFrame envP = .ok rP ∧
    connectCalls firstFrame envP = [(rP.host, rP.port)] ∧
    (envP.PROXY_HOST ≠ "" ∧ rP.decodedHost ≠ envP.PROXY_HOST ∧ rP.host = envP.PROXY_HOST) ∧
    processVlessHeader firstFrame envA = .ok rA ∧
    connectCalls firstFrame envA = [(rA.host, rA.port)] ∧
    (envA.PROXY_HOST = "" ∧ rA.host = rA.decodedHost) :=
  ⟨by decide,
   (destination_override firstFrame envP rP (by decide)).1,
   ⟨by decide, by decide,
    (destination_override firstFrame envP rP (by decide)).2.2.1 (by decide) (by decide)⟩,
   by decide,
   (destination_override firstFrame envA rA (by decide)).1,
   ⟨by decide, (destination_override firstFrame envA rA (by decide)).2.1 (by decide)⟩⟩

/-! ## C6: truncated frames fail with TruncatedHeader -/

theorem lt_length_of_getElem?_eq_some {l : List Nat} {i b : Nat}
    (h : l[i]? = some b) : i < l.length := by
  by_contra hc
  rw [List.getElem?_eq_none (by omega)] at h
  cases h

/-- If every step up to the address decoder succeeds and the address
decoder itself throws, `processVlessHeader` propagates that error. -/
theorem processVlessHeader_address_err (msg : List Nat) (env : Env) (N kind : Nat)
    {e : VlessError} (hv : msg[0]? = some 0)
    (hsec : (msg.drop 1).take 16 = uuidToBytes env.UUID)
    (hN : msg[17]? = some N) (hCmd : msg[18 + N]? = some 1)
    (hk : msg[21 + N]? = some kind)
    (haddr : parseAddress msg (22 + N) kind = .error e) :
    processVlessHeader msg env = .error e := by
  have h21 := lt_length_of_getElem?_eq_some hk
  have h17 := lt_length_of_getElem?_eq_some hN
  rcases hx1 : msg[19 + N]? with _ | b1
  · exact absurd (List.getElem?_eq_none_iff.mp hx1) (by omega)
  rcases hx2 : msg[19 + N + 1]? with _ | b2
  · exact absurd (List.getElem?_eq_none_iff.mp hx2) (by omega)
  have hslice : sliceBytes msg 1 16 = .ok ((msg.drop 1).take 16) := by
    unfold sliceBytes
    rw [if_pos (by omega)]
  have hcmp : compareArrays ((msg.drop 1).take 16) (uuidToBytes env.UUID) = true := by
    rw [hsec]
    exact compareArrays_self _
  simp only [processVlessHeader, getUint8_ok hv, reduceIte, hslice, hcmp, Bool.not_true,
    Bool.false_eq_true, getUint8_ok hN, getUint8_ok hCmd, getUint16_ok hx1 hx2,
    getUint8_ok hk, haddr]
  simp

/-- C6: a frame shorter than the bytes required at any parsing step
(version byte, secret field, addons-length byte, addons region / command
byte, port bytes, address-kind byte, or address bytes of any of the
three kinds, including a domain frame one byte short of its declared
length) fails with `TruncatedHeader`. -/
theorem truncation_fails (msg : List Nat) (env : Env) :
    (msg.length < 1 → processVlessHeader msg env = .error .truncatedHeader) ∧
    (msg[0]? = some 0 → msg.length < 17 →
      processVlessHeader msg env = .error .truncatedHeader) ∧
    (msg[0]? = some 0 → (msg.drop 1).take 16 = uuidToBytes env.UUID →
      msg.length < 18 → processVlessHeader msg env = .error .truncatedHeader) ∧
    (msg[0]? = some 0 → (msg.drop 1).take 16 = uuidToBytes env.UUID →
      ∀ N, msg[17]? = some N →
        (msg.length < 19 + N → processVlessHeader msg env = .error .truncatedHeader) ∧
        (msg[18 + N]? = some 1 →
          (msg.length < 21 + N → processVlessHeader msg env = .error .truncatedHeader) ∧
          (msg.length = 21 + N → processVlessHeader msg env = .error .truncatedHeader) ∧
          (∀ kind, msg[21 + N]? = some kind →
            (kind = 1 → msg.length < 26 + N →
              processVlessHeader msg env = .error .truncatedHeader) ∧
            (kind = 2 → msg.length < 23 + N →
              processVlessHeader msg env = .error .truncatedHeader) ∧
            (kind = 2 → ∀ L, msg[22 + N]? = some L → msg.length < 23 + N + L →
              processVlessHeader msg env = .error .truncatedHeader) ∧
            (kind = 3 → msg.length < 38 + N →
              processVlessHeader msg env = .error .truncatedHeader)))) := by
  refine ⟨?_, ?_, ?_, ?_⟩
  · intro hlen
    simp only [processVlessHeader, getUint8_err (show msg.length ≤ 0 by omega)]
  · intro hv hlen
    simp only [processVlessHeader, getUint8_ok hv, reduceIte,
      sliceBytes_err (show msg.length < 1 + 16 by omega)]
    simp
  · intro hv hsec hlen
    have h17 : 17 ≤ msg.length := by
      have hlen16 := congrArg List.length hsec
      rw [uuidToBytes_length] at hlen16
      simp only [List.length_take, List.length_drop] at hlen16
      omega
    have hslice : sliceBytes msg 1 16 = .ok ((msg.drop 1).take 16) := by
      unfold sliceBytes
      rw [if_pos (by omega)]
    have hcmp : compareArrays ((msg.drop 1).take 16) (uuidToBytes env.UUID) = true := by
      rw [hsec]
      exact compareArrays_self _
    simp only [processVlessHeader, getUint8_ok hv, reduceIte, hslice, hcmp, Bool.not_true,
      Bool.false_eq_true, getUint8_err (show msg.length ≤ 17 by omega)]
    simp
  · intro hv hsec N hN
    have h17 := lt_length_of_getElem?_eq_some hN
    have hslice : sliceBytes msg 1 16 = .ok ((msg.drop 1).take 16) := by
      unfold sliceBytes
      rw [if_pos (by omega)]
    have hcmp : compareArrays ((msg.drop 1).take 16) (uuidToBytes env.UUID) = true := by
      rw [hsec]
      exact compareArrays_self _
    refine ⟨?_, ?_⟩
    · intro hlen
      simp only [processVlessHeader, getUint8_ok hv, reduceIte, hslice, hcmp, Bool.not_true,
        Bool.false_eq_true, getUint8_ok hN, getUint8_err (show msg.length ≤ 18 + N by omega)]
      simp
    · intro hCmd
      refine ⟨?_, ?_, ?_⟩
      · intro hlen
        simp only [processVlessHeader, getUint8_ok hv, reduceIte, hslice, hcmp, Bool.not_true,
          Bool.false_eq_true, getUint8_ok hN, getUint8_ok hCmd,
          getUint16_err (show msg.length ≤ 19 + N + 1 by omega)]
        simp
      · intro hlen
        rcases hx1 : msg[19 + N]? with _ | b1
        · exact absurd (List.getElem?_eq_none_iff.mp hx1) (by omega)
        rcases hx2 : msg[19 + N + 1]? with _ | b2
        · exact absurd (List.getElem?_eq_none_iff.mp hx2) (by omega)
        simp only [processVlessHeader, getUint8_ok hv, reduceIte, hslice, hcmp, Bool.not_true,
          Bool.false_eq_true, getUint8_ok hN, getUint8_ok hCmd, getUint16_ok hx1 hx2,
          getUint8_err (show msg.length ≤ 21 + N by omega)]
        simp
      · intro kind hk
        have h21 := lt_length_of_getElem?_eq_some hk
        refine ⟨?_, ?_, ?_, ?_⟩
        · rintro rfl hlen
          refine processVlessHeader_address_err msg env N 1 hv hsec hN hCmd hk ?_
          unfold parseAddress
          rw [if_pos rfl, sliceBytes_err (by omega)]
        · rintro rfl hlen
          refine processVlessHeader_address_err msg env N 2 hv hsec hN hCmd hk ?_
          unfold parseAddress
          rw [if_neg (by decide), if_pos rfl, getUint8_err (by omega)]
        · rintro rfl L hL hlen
          refine processVlessHeader_address_err msg env N 2 hv hsec hN hCmd hk ?_
          unfold parseAddress
          rw [if_neg (by decide), if_pos rfl, getUint8_ok hL]
          simp only [sliceBytes_err (show msg.length < 22 + N + 1 + L by omega)]
        · rintro rfl hlen
          refine processVlessHeader_address_err msg env N 3 hv hsec hN hCmd hk ?_
          unfold parseAddress
          rw [if_neg (by decide), if_neg (by decide), if_pos rfl,
            sliceBytes_err (by omega)]

theorem truncation_fails_witness :
    (secretOnlyFrame[0]? = some 0 ∧
      (secretOnlyFrame.drop 1).take 16 = uuidToBytes envA.UUID ∧
      secretOnlyFrame.length < 18 ∧
      processVlessHeader secretOnlyFrame envA = .error .truncatedHeader) ∧
    shortDomainFrame[0]? = some 0 ∧
    (shortDomainFrame.drop 1).take 16 = uuidToBytes envA.UUID ∧
    shortDomainFrame[17]? = some 0 ∧ shortDomainFrame[18]? = some 1 ∧
    shortDomainFrame[21]? = some 2 ∧ shortDomainFrame[22]? = some 11 ∧
    shortDomainFrame.length < 23 + 0 + 11 ∧
    processVlessHeader shortDomainFrame envA = .error .truncatedHeader :=
  ⟨⟨by decide, by decide, by decide,
    (truncation_fails secretOnlyFrame envA).2.2.1 (by decide) (by decide) (by decide)⟩,
   by decide, by decide, by decide, by decide, by decide, by decide, by decide,
   (((truncation_fails shortDomainFrame envA).2.2.2 (by decide) (by decide) 0
       (by decide)).2 (by decide)).2.2 2 (by decide) |>.2.2.1 rfl 11 (by decide)
     (by decide)⟩

/-! ## C8: version is checked first -/

/-- C8: for every first frame whose version byte is some `v ≠ 0`, header
processing fails with `UnsupportedVersion v` — for every configuration,
so in particular the secret is never compared. -/
theorem version_checked_first (msg : List Nat) (env : Env) (v : Nat)
    (hv : msg[0]? = some v) (hne : v ≠ 0) :
    processVlessHeader msg env = .error (.unsupportedVersion v) := by
  unfold processVlessHeader
  rw [getUint8_ok hv]
  simp [hne]

theorem version_checked_first_witness :
    [(1 : Nat), 2, 3][0]? = some 1 ∧ (1 : Nat) ≠ 0 ∧
    processVlessHeader [1, 2, 3] envA = .error (.unsupportedVersion 1) :=
  ⟨by decide, by decide, version_checked_first [1, 2, 3] envA 1 (by decide) (by decide)⟩

/-! ## C3: a wrong secret fails before any connect -/

/-- C3: if the frame has a version byte of 0 and a full 16-byte secret
field that differs (in at least one byte, hence as a list) from the
configured secret, processing fails with `InvalidSecret` and the
connector is never invoked. -/
theorem invalid_secret_blocks_connect (msg : List Nat) (env : Env)
    (hlen : 17 ≤ msg.length) (hv : msg[0]? = some 0)
    (hsec : (msg.drop 1).take 16 ≠ uuidToBytes env.UUID) :
    processVlessHeader msg env = .error .invalidSecret ∧ connectCalls msg env = [] := by
  have hslice : sliceBytes msg 1 16 = .ok ((msg.drop 1).take 16) := by
    unfold sliceBytes
    rw [if_pos (by omega)]
  have hcmp : compareArrays ((msg.drop 1).take 16) (uuidToBytes env.UUID) = false := by
    rcases hb : compareArrays ((msg.drop 1).take 16) (uuidToBytes env.UUID)
    · rfl
    · exact absurd (compareArrays_eq_true_iff.mp hb) hsec
  have hparse : processVlessHeader msg env = .error .invalidSecret := by
    unfold processVlessHeader
    rw [getUint8_ok hv]
    simp only [ne_eq, reduceIte, hslice, hcmp]
    simp
  exact ⟨hparse, by unfold connectCalls; rw [hparse]⟩

theorem invalid_secret_blocks_connect_witness :
    17 ≤ badSecretFrame.length ∧ badSecretFrame[0]? = some 0 ∧
    (badSecretFrame.drop 1).take 16 ≠ uuidToBytes envA.UUID ∧
    processVlessHeader badSecretFrame envA = .error .invalidSecret ∧
    connectCalls badSecretFrame envA = [] :=
  ⟨by decide, by decide, by decide,
   invalid_secret_blocks_connect badSecretFrame envA (by decide) (by decide) (by decide)⟩

/-! ## C10: the secret comparison always sees two 16-byte arrays -/

/-- C10: `uuidToBytes` yields exactly 16 bytes for every input string,
with unparsable hex pairs stored as byte 0; at the comparison site the
received field is also exactly 16 bytes, so the length-mismatch branch of
`compareArrays` cannot be taken there. -/
theorem uuid_bytes_always_sixteen :
    (∀ s : String, (uuidToBytes s).length = 16) ∧
    (∀ (s : String) (i : Nat), i < 16 →
      parseIntHex (jsSubstring (removeDashes s) (i * 2) (i * 2 + 2)) = none →
      (uuidToBytes s).getD i 1 = 0) ∧
    (∀ (msg : List Nat) (env : Env), 17 ≤ msg.length →
      ∃ received, sliceBytes msg 1 16 = .ok received ∧
        received.length = (uuidToBytes env.UUID).length) := by
  refine ⟨uuidToBytes_length, ?_, ?_⟩
  · intro s i hi hnone
    unfold uuidToBytes
    simp only [List.getD_eq_getElem?_getD, List.getElem?_map, List.getElem?_range, hi,
      if_pos, Option.map_some]
    simp [hnone, toUint8]
  · intro msg env hlen
    refine ⟨(msg.drop 1).take 16, ?_, ?_⟩
    · unfold sliceBytes
      rw [if_pos (by omega)]
    · rw [uuidToBytes_length]
      simp only [List.length_take, List.length_drop]
      omega

/-! ## C7: address decoding -/

/-- C7: the three address decoders consume exactly the right bytes: IPv4
reads 4 bytes and joins them dot-decimal (`{1,2,3,4}` gives `"1.2.3.4"`);
a domain of declared length `L ≤ 255` decodes the `L` bytes after the
length byte as UTF-8 text; IPv6 reads 16 bytes and renders 8
colon-separated groups of two two-digit lowercase hex bytes (all-zero
bytes except a final 1 give the fully expanded loopback-successor
form). -/
theorem address_decoding :
    (∀ (pre rest : List Nat) (a b c d : Nat),
      parseAddress (pre ++ ([a, b, c, d] ++ rest)) pre.length 1 =
        .ok (String.intercalate "." [toString a, toString b, toString c, toString d],
          pre.length + 4)) ∧
    parseAddress [1, 2, 3, 4] 0 1 = .ok ("1.2.3.4", 4) ∧
    (∀ (pre dom rest : List Nat), dom.length ≤ 255 →
      parseAddress (pre ++ (dom.length :: (dom ++ rest))) pre.length 2 =
        .ok (utf8Decode dom, pre.length + 1 + dom.length)) ∧
    (∀ (pre rest bs : List Nat), bs.length = 16 →
      parseAddress (pre ++ (bs ++ rest)) pre.length 3 =
        .ok (ipv6String bs, pre.length + 16)) ∧
    (∀ b0 b1 b2 b3 b4 b5 b6 b7 b8 b9 b10 b11 b12 b13 b14 b15 : Nat,
      ipv6String [b0, b1, b2, b3, b4, b5, b6, b7, b8, b9, b10, b11, b12, b13, b14, b15] =
        String.intercalate ":" [hexPad2 b0 ++ hexPad2 b1, hexPad2 b2 ++ hexPad2 b3,
          hexPad2 b4 ++ hexPad2 b5, hexPad2 b6 ++ hexPad2 b7, hexPad2 b8 ++ hexPad2 b9,
          hexPad2 b10 ++ hexPad2 b11, hexPad2 b12 ++ hexPad2 b13,
          hexPad2 b14 ++ hexPad2 b15]) ∧
    (∀ b : Nat, b < 256 → (hexPad2 b).length = 2 ∧
      (hexPad2 b).data.all
        (fun ch => ('0' ≤ ch && ch ≤ '9') || ('a' ≤ ch && ch ≤ 'f')) = true) ∧
    parseAddress (List.replicate 15 0 ++ [1]) 0 3 =
      .ok ("0000:0000:0000:0000:0000:0000:0000:0001", 16) := by
  refine ⟨?_, by rfl, ?_, ?_, ?_, ?_, by rfl⟩
  · intro pre rest a b c d
    have hs : sliceBytes (pre ++ ([a, b, c, d] ++ rest)) pre.length 4 = .ok [a, b, c, d] :=
      sliceBytes_ok (List.drop_left pre _) rfl (by simp)
    unfold parseAddress
    rw [if_pos rfl]
    simp only [hs]
    rfl
  · intro pre dom rest hL
    have hd : (pre ++ (dom.length :: (dom ++ rest))).drop pre.length =
        dom.length :: (dom ++ rest) := List.drop_left pre _
    have hlenByte := getElem?_of_drop_cons hd
    have hd1 : (pre ++ (dom.length :: (dom ++ rest))).drop (pre.length + 1) = dom ++ rest := by
      have h2 := List.drop_drop 1 pre.length (pre ++ (dom.length :: (dom ++ rest)))
      rw [hd] at h2
      rw [← h2]
      rfl
    have hs : sliceBytes (pre ++ (dom.length :: (dom ++ rest))) (pre.length + 1) dom.length =
        .ok dom :=
      sliceBytes_ok hd1 rfl (by simp)
    unfold parseAddress
    rw [if_neg (by decide), if_pos rfl, getUint8_ok hlenByte]
    simp only [hs]
  · intro pre rest bs h16
    have hs : sliceBytes (pre ++ (bs ++ rest)) pre.length 16 = .ok bs :=
      sliceBytes_ok (List.drop_left pre _) h16 (by simp)
    unfold parseAddress
    rw [if_neg (by decide), if_neg (by decide), if_pos rfl, hs]
  · intro b0 b1 b2 b3 b4 b5 b6 b7 b8 b9 b10 b11 b12 b13 b14 b15
    simp [ipv6String, ipv6Fold, String.intercalate, String.intercalate.go, String.append_assoc]
  · intro b hb
    revert b
    set_option maxRecDepth 4000 in decide

theorem address_decoding_witness :
    parseAddress (([] : List Nat) ++ ([1, 2, 3, 4] ++ [])) ([] : List Nat).length 1 =
      .ok (String.intercalate "." [toString 1, toString 2, toString 3, toString 4],
        ([] : List Nat).length + 4) ∧
    (dom11.length ≤ 255 ∧
      parseAddress (([] : List Nat) ++ (dom11.length :: (dom11 ++ []))) ([] : List Nat).length 2 =
        .ok (utf8Decode dom11, ([] : List Nat).length + 1 + dom11.length)) ∧
    utf8Decode dom11 = "example.com" ∧
    ((List.replicate 15 0 ++ [1] : List Nat).length = 16 ∧
      parseAddress (([] : List Nat) ++ ((List.replicate 15 0 ++ [1]) ++ []))
          ([] : List Nat).length 3 =
        .ok (ipv6String (List.replicate 15 0 ++ [1]), ([] : List Nat).length + 16)) ∧
    ((255 : Nat) < 256 ∧ (hexPad2 255).length = 2) :=
  ⟨address_decoding.1 [] [] 1 2 3 4,
   ⟨by decide, address_decoding.2.2.1 [] dom11 [] (by decide)⟩,
   by decide,
   ⟨by decide, address_decoding.2.2.2.1 [] [] (List.replicate 15 0 ++ [1]) (by decide)⟩,
   ⟨by decide, (address_decoding.2.2.2.2.2.1 255 (by decide)).1⟩⟩

theorem uuid_bytes_always_sixteen_witness :
    (uuidToBytes "not-a-uuid-at-all").length = 16 ∧
    ((0 : Nat) < 16 ∧
      parseIntHex (jsSubstring (removeDashes "not-a-uuid-at-all") 0 2) = none ∧
      (uuidToBytes "not-a-uuid-at-all").getD 0 1 = 0) ∧
    (17 ≤ (List.replicate 17 0).length ∧
      ∃ received, sliceBytes (List.replicate 17 0) 1 16 = .ok received ∧
        received.length = (uuidToBytes envA.UUID).length) :=
  ⟨uuid_bytes_always_sixteen.1 "not-a-uuid-at-all",
   ⟨by decide, by decide,
    uuid_bytes_always_sixteen.2.1 "not-a-uuid-at-all" 0 (by decide) (by decide)⟩,
   ⟨by decide, uuid_bytes_always_sixteen.2.2 (List.replicate 17 0) envA (by decide)⟩⟩

/-! ## String helper lemmas -/

theorem str_append_ne_empty (s t : String) (h : s.data ≠ []) : s ++ t ≠ "" := by
  intro hc
  apply h
  have hd : (s ++ t).data = s.data ++ t.data := String.data_append s t
  rw [hc] at hd
  exact (List.append_eq_nil.mp hd.symm).1

theorem errorMessage_ne_empty (e : VlessError) : errorMessage e ≠ "" := by
  cases e with
  | truncatedHeader => decide
  | unsupportedVersion v => exact str_append_ne_empty _ _ (by decide)
  | invalidSecret => decide
  | unsupportedCommand c => exact str_append_ne_empty _ _ (by decide)
  | invalidAddressKind t => exact str_append_ne_empty _ _ (by decide)

theorem connectFailMessage_ne_empty (host : String) (port : Nat) (cause : String) :
    connectFailMessage host port cause ≠ "" := by
  intro hc
  have hd := congrArg String.data hc
  simp [connectFailMessage, String.data_append] at hd

/-! ## Session-machine lemmas -/

theorem clientSends_append (a b : List SessionEffect) :
    clientSends (a ++ b) = clientSends a ++ clientSends b := by
  unfold clientSends
  exact List.filterMap_append a b _

theorem clientSends_applyHandler (env : Env) (world : String → Nat → Option String)
    (frame : List Nat) (st : RelayState) (h : Handler) :
    clientSends (applyHandler env world frame st h).effects = clientSends st.effects := by
  cases h with
  | vless =>
    unfold applyHandler
    cases hp : processVlessHeader frame env with
    | error e => simp [clientSends_append, clientSends]
    | ok r =>
      cases hw : world r.host r.port <;> simp [hw, clientSends_append, clientSends]
  | pump c => simp [applyHandler, clientSends_append, clientSends]

theorem clientSends_foldl (env : Env) (world : String → Nat → Option String)
    (frame : List Nat) :
    ∀ (hs : List Handler) (st : RelayState),
      clientSends ((hs.foldl (applyHandler env world frame) st).effects) =
        clientSends st.effects := by
  intro hs
  induction hs with
  | nil => intro st; rfl
  | cons h t ih =>
    intro st
    rw [List.foldl_cons, ih, clientSends_applyHandler]

theorem clientSends_runSession (env : Env) (world : String → Nat → Option String)
    (events : List WsEvent) :
    clientSends (runSession env world events).effects = [] := by
  suffices hGen : ∀ (evs : List WsEvent) (st : RelayState),
      clientSends ((evs.foldl (dispatchEvent env world) st).effects) =
        clientSends st.effects by
    exact (hGen events initState).trans rfl
  intro evs
  induction evs with
  | nil => intro st; rfl
  | cons e t ih =>
    intro st
    rw [List.foldl_cons, ih]
    cases e with
    | message frame => exact clientSends_foldl env world frame st.listeners st
    | remoteData c chunk => rfl

/-! ## C1: the header listener is never removed -/

/-- C1 fails on the code: with a valid first frame and a subsequent frame
`frameQ`, the outbound connection does receive the initial payload
followed by `frameQ`, but `processVlessHeader` is invoked a second time
(on `frameQ`, which is not a valid header), and the session is torn down
with close code 1011 — the frame is not treated as raw payload only. -/
theorem header_reparsed_on_second_frame :
    (runSession envA worldUp [.message firstFrame, .message frameQ]).effects =
      [.parse firstFrame, .connect 0 "1.2.3.4" 80, .writeRemote 0 [170],
       .parse frameQ, .closeWS 1011 "Unsupported VLESS version: 1",
       .writeRemote 0 frameQ] ∧
    (parsedFrames
      (runSession envA worldUp [.message firstFrame, .message frameQ]).effects).length = 2 ∧
    remoteWrites 0
      (runSession envA worldUp [.message firstFrame, .message frameQ]).effects =
      [[170], frameQ] :=
  ⟨by decide, by decide, by decide⟩

/-! ## C2: the reverse direction is missing -/

/-- C2 fails on the code: no session trace ever sends a frame back to the
client (the source never reads `remoteSocket.readable` and never calls
`server.send`); in particular a chunk produced by the outbound connection
of an established session yields no client-bound frame and no effect at
all. -/
theorem no_reverse_relay :
    (∀ (env : Env) (world : String → Nat → Option String) (events : List WsEvent),
      clientSends (runSession env world events).effects = []) ∧
    (runSession envA worldUp [.message firstFrame, .remoteData 0 [104, 105]]).effects =
      [.parse firstFrame, .connect 0 "1.2.3.4" 80, .writeRemote 0 [170]] :=
  ⟨clientSends_runSession, by decide⟩

/-! ## C9: upgrade gate and abnormal close codes -/

/-- C9: a request without a `websocket` upgrade header gets the 426
response (and nothing else happens); with it, the 101 upgrade response is
returned; and every parsing/validation error and every connect failure
after the upgrade closes the server WebSocket with code 1011 (≠ 1000) and
a non-empty reason string. -/
theorem upgrade_gate_and_close_codes :
    handleVlessGate none = .response 426 "Expected a WebSocket Upgrade request" ∧
    (∀ s : String, jsToLowerCase s ≠ "websocket" →
      handleVlessGate (some s) = .response 426 "Expected a WebSocket Upgrade request") ∧
    (∀ s : String, jsToLowerCase s = "websocket" → handleVlessGate (some s) = .upgrade 101) ∧
    (∀ (env : Env) (world : String → Nat → Option String) (st : RelayState)
        (frame : List Nat) (e : VlessError),
      processVlessHeader frame env = .error e →
      applyHandler env world frame st .vless =
        { st with effects := st.effects ++ [.parse frame, .closeWS 1011 (errorMessage e)] } ∧
      (1011 : Nat) ≠ 1000 ∧ errorMessage e ≠ "") ∧
    (∀ (env : Env) (world : String → Nat → Option String) (st : RelayState)
        (frame : List Nat) (r : VlessResult) (cause : String),
      processVlessHeader frame env = .ok r → world r.host r.port = some cause →
      applyHandler env world frame st .vless =
        { st with
          nextConn := st.nextConn + 1
          effects := st.effects ++ [.parse frame, .connect st.nextConn r.host r.port,
            .closeWS 1011 (connectFailMessage r.host r.port cause)] } ∧
      (1011 : Nat) ≠ 1000 ∧ connectFailMessage r.host r.port cause ≠ "") := by
  refine ⟨rfl, ?_, ?_, ?_, ?_⟩
  · intro s h
    simp only [handleVlessGate]
    rw [if_pos (Or.inr h)]
  · intro s h
    simp only [handleVlessGate]
    rw [if_neg]
    intro hor
    rcases hor with hemp | hne
    · subst hemp
      exact absurd h (by decide)
    · exact hne h
  · intro env world st frame e hp
    refine ⟨?_, by decide, errorMessage_ne_empty e⟩
    simp only [applyHandler, hp]
    simp
  · intro env world st frame r cause hp hw
    refine ⟨?_, by decide, connectFailMessage_ne_empty r.host r.port cause⟩
    simp only [applyHandler, hp, hw]
    simp

theorem upgrade_gate_and_close_codes_witness :
    handleVlessGate (some "WebSocket") = .upgrade 101 ∧
    handleVlessGate (some "h2c") = .response 426 "Expected a WebSocket Upgrade request" ∧
    (applyHandler envA worldUp frameQ initState .vless =
      { initState with effects := initState.effects ++
          [.parse frameQ, .closeWS 1011 (errorMessage (.unsupportedVersion 1))] } ∧
      (1011 : Nat) ≠ 1000 ∧ errorMessage (.unsupportedVersion 1) ≠ "") ∧
    (applyHandler envA (fun _ _ => some "timed out") firstFrame initState .vless =
      { initState with
        nextConn := initState.nextConn + 1
        effects := initState.effects ++
          [.parse firstFrame, .connect initState.nextConn "1.2.3.4" 80,
           .closeWS 1011 (connectFailMessage "1.2.3.4" 80 "timed out")] } ∧
      (1011 : Nat) ≠ 1000 ∧ connectFailMessage "1.2.3.4" 80 "timed out" ≠ "") :=
  ⟨upgrade_gate_and_close_codes.2.2.1 "WebSocket" (by decide),
   upgrade_gate_and_close_codes.2.1 "h2c" (by decide),
   upgrade_gate_and_close_codes.2.2.2.1 envA worldUp initState frameQ
     (.unsupportedVersion 1) (by decide),
   upgrade_gate_and_close_codes.2.2.2.2 envA (fun _ _ => some "timed out") initState
     firstFrame rA "timed out" (by decide) rfl⟩

end Vless
